import Mathlib

/-
Shallow embedding of the job orchestration / retry engine of the
`scalpeou` repository (src/src/core/taskRunner.ts, src/src/core/storage
section of the same file, src/src/api/binance.ts, src/src/types.ts),
together with theorems checking the natural-language specification
against it.

Conventions of the embedding:
  - JavaScript numbers are modelled as `ℚ` (times, milliseconds, parsed
    header values); counters that are integers in the source are `ℕ`.
  - `async` control flow is synchronous here; the nondeterministic
    environment (network outcomes, Math.random jitter draws, storage-tier
    failures, the wall clock) is passed in explicitly as data.
  - fallible code returns `Except`.
-/

namespace Scalpeou

/-- The fixed series keys, INTERVALS from types.ts:
["1m", "5m", "15m", "1h", "2h", "4h", "12h", "1w", "1M"]. -/
inductive Interval where
  | i1m
  | i5m
  | i15m
  | i1h
  | i2h
  | i4h
  | i12h
  | i1w
  | i1M
deriving DecidableEq, Fintype

/-- The string name of each interval, as written in types.ts. -/
def intervalName : Interval → String
  | Interval.i1m => "1m"
  | Interval.i5m => "5m"
  | Interval.i15m => "15m"
  | Interval.i1h => "1h"
  | Interval.i2h => "2h"
  | Interval.i4h => "4h"
  | Interval.i12h => "12h"
  | Interval.i1w => "1w"
  | Interval.i1M => "1M"

/-- INTERVALS, in the fixed processing order of types.ts. -/
def INTERVALS : List Interval :=
  [Interval.i1m, Interval.i5m, Interval.i15m, Interval.i1h, Interval.i2h,
   Interval.i4h, Interval.i12h, Interval.i1w, Interval.i1M]

/-- TaskStatus from types.ts. -/
inductive TaskStatus where
  | pending
  | running
  | retrying
  | done
  | error
deriving DecidableEq

/-- A minimal JSON value model, used for the decoded response body of the
remote API (the argument of toCandleRow). `obj` stands for any JSON
object; its contents are never inspected by the code under study. -/
inductive Json where
  | null
  | bool (b : Bool)
  | num (n : ℚ)
  | str (s : String)
  | arr (items : List Json)
  | obj

/-- Whether a JSON value is null. JavaScript `x != null` on a decoded JSON
value (or on an out-of-range index read, which yields undefined and is
modelled by defaulting to `Json.null`) is the negation of this. -/
def Json.isNull : Json → Bool
  | Json.null => true
  | _ => false

/-- Models the JavaScript `Number(x)` coercion on a decoded JSON value.
Only the `num` case is exercised by well-formed exchange payloads; string
parsing and the NaN results for objects are abstracted to 0, which no
claim under study depends on. -/
def jsNumber : Json → ℚ
  | Json.num n => n
  | Json.bool b => if b then 1 else 0
  | _ => 0

/-- Models the JavaScript `String(x)` coercion on a decoded JSON value.
Exact numeric formatting is abstracted; no claim under study depends on
these strings. -/
def jsString : Json → String
  | Json.str s => s
  | Json.num n => toString n
  | Json.bool b => toString b
  | Json.null => "null"
  | Json.arr _ => ""
  | Json.obj => "[object Object]"

/-- Models `new Date(ms).toISOString()`; the exact format is irrelevant to
every claim under study. -/
def isoStringOfMs (ms : ℚ) : String :=
  toString ms

/-- CandleRow from types.ts (field `open` is `open_` because `open` is a
Lean keyword). -/
structure CandleRow where
  openTimeISO : String
  openTimeMs : ℚ
  open_ : String
  high : String
  low : String
  close : String
  volume : String
  closeTimeISO : String
  closeTimeMs : ℚ
  quoteVolume : Option String
  numTrades : Option ℚ
  takerBuyBaseVol : Option String
  takerBuyQuoteVol : Option String
deriving DecidableEq

/-- BinanceApiError from api/binance.ts (the Error subclass, reduced to its
data fields). -/
structure BinanceApiError where
  message : String
  status : Option ℕ
  retryAfterMs : Option ℚ
  retryable : Bool
deriving DecidableEq

/-- A present, non-empty retry-hint header value, abstracted to the
outcomes of the two JavaScript parses the code applies to it: `asNumber`
is the result of `Number(v)` when that is finite (`none` for NaN or
±Infinity), `asDateMs` is the result of `Date.parse(v)` when finite. -/
structure HeaderValue where
  asNumber : Option ℚ
  asDateMs : Option ℚ
deriving DecidableEq

/-- parseRetryAfterMs from api/binance.ts. `header` is the first present
value among the retry-after / x-retry-after / retry-after-ms headers
(`none` also covers the empty string, which the `!retryAfter` guard
treats as absent); `nowMs` is `Date.now()`. -/
def parseRetryAfterMs (header : Option HeaderValue) (nowMs : ℚ) : Option ℚ :=
  match header with
  | none => none
  | some v =>
    match v.asNumber with
    | some numeric => some (if 1000 < numeric then numeric else numeric * 1000)
    | none =>
      match v.asDateMs with
      | some dateMs => some (max 0 (dateMs - nowMs))
      | none => none

/-- toCandleRow from api/binance.ts: a raw kline tuple must be an array of
length at least 7; optional trailing fields are kept only when not
null/undefined (an out-of-range read yields undefined, modelled by the
`Json.null` default of `getD`). -/
def toCandleRow (raw : Json) : Except BinanceApiError CandleRow :=
  match raw with
  | Json.arr items =>
    if items.length < 7 then
      Except.error { message := "Invalid candle payload from Binance",
                     status := none, retryAfterMs := none, retryable := true }
    else
      Except.ok {
        openTimeISO := isoStringOfMs (jsNumber (items.getD 0 Json.null))
        openTimeMs := jsNumber (items.getD 0 Json.null)
        open_ := jsString (items.getD 1 Json.null)
        high := jsString (items.getD 2 Json.null)
        low := jsString (items.getD 3 Json.null)
        close := jsString (items.getD 4 Json.null)
        volume := jsString (items.getD 5 Json.null)
        closeTimeISO := isoStringOfMs (jsNumber (items.getD 6 Json.null))
        closeTimeMs := jsNumber (items.getD 6 Json.null)
        quoteVolume := if (items.getD 7 Json.null).isNull then none
                       else some (jsString (items.getD 7 Json.null))
        numTrades := if (items.getD 8 Json.null).isNull then none
                     else some (jsNumber (items.getD 8 Json.null))
        takerBuyBaseVol := if (items.getD 9 Json.null).isNull then none
                           else some (jsString (items.getD 9 Json.null))
        takerBuyQuoteVol := if (items.getD 10 Json.null).isNull then none
                            else some (jsString (items.getD 10 Json.null)) }
  | _ =>
    Except.error { message := "Invalid candle payload from Binance",
                   status := none, retryAfterMs := none, retryable := true }

/-- `json.map((item) => toCandleRow(item))` with JavaScript exception
propagation: the first throwing element aborts the whole map. -/
def mapToCandleRows : List Json → Except BinanceApiError (List CandleRow)
  | [] => Except.ok []
  | item :: rest =>
    match toCandleRow item with
    | Except.error e => Except.error e
    | Except.ok row =>
      match mapToCandleRows rest with
      | Except.error e => Except.error e
      | Except.ok rows => Except.ok (row :: rows)

/-- The message of the error thrown by `response.json()` on an unparsable
body; it is produced by the JavaScript runtime, so its exact text is
abstracted. The code folds it into a retryable BinanceApiError. -/
def jsonParseFailureMessage : String :=
  "Unexpected end of JSON input"

/-- The environment-determined outcome of one `fetch` round trip inside
fetchKlines: an abort by the request timeout, a network-level rejection,
or an HTTP response with its status, retry-hint header, body text
(`none` when `response.text()` itself fails) and decoded JSON body
(`none` when `response.json()` fails). -/
inductive FetchOutcome where
  | abortTimeout
  | netError (message : String)
  | response (status : ℕ) (retryAfter : Option HeaderValue)
      (bodyText : Option String) (bodyJson : Option Json)

/-- fetchKlines from api/binance.ts, with URL construction and the actual
network call abstracted into the `outcome` argument. Mirrors the
response handling: non-ok statuses raise a BinanceApiError that is
retryable exactly for 418, 429 and 5xx, carrying the parsed retry-after
hint and the body text truncated to 250 characters; ok responses whose
body is not an array, or contains a tuple shorter than 7, raise a
retryable error; timeouts and network rejections are retryable. -/
def fetchKlines (outcome : FetchOutcome) (nowMs : ℚ) :
    Except BinanceApiError (List CandleRow) :=
  match outcome with
  | FetchOutcome.abortTimeout =>
    Except.error { message := "Request timeout",
                   status := none, retryAfterMs := none, retryable := true }
  | FetchOutcome.netError msg =>
    Except.error { message := msg,
                   status := none, retryAfterMs := none, retryable := true }
  | FetchOutcome.response status retryAfter bodyText bodyJson =>
    if 200 ≤ status ∧ status < 300 then
      match bodyJson with
      | none =>
        Except.error { message := jsonParseFailureMessage,
                       status := none, retryAfterMs := none, retryable := true }
      | some (Json.arr items) => mapToCandleRows items
      | some _ =>
        Except.error { message := "Unexpected Binance response format",
                       status := none, retryAfterMs := none, retryable := true }
    else
      let detail := bodyText.getD ""
      Except.error {
        message := "HTTP " ++ toString status ++
          (if detail = "" then "" else ": " ++ detail.take 250)
        status := some status
        retryAfterMs := parseRetryAfterMs retryAfter nowMs
        retryable := status == 418 || status == 429 || decide (500 ≤ status) }

/-- MAX_BACKOFF_MS from taskRunner.ts. -/
def MAX_BACKOFF_MS : ℚ := 60000

/-- computeRetryDelayMs from taskRunner.ts. `jitter` is the draw
`Math.floor(Math.random() * 1000)`, an integer in [0, 999], supplied by
the environment; the `retryAfterMs && retryAfterMs > 0` guard is the
positivity test on the optional hint. -/
def computeRetryDelayMs (attempts : ℕ) (jitter : ℕ) (retryAfterMs : Option ℚ) : ℚ :=
  match retryAfterMs with
  | some hint =>
    if 0 < hint then
      min hint MAX_BACKOFF_MS
    else
      min MAX_BACKOFF_MS (min MAX_BACKOFF_MS (1000 * 2 ^ min attempts 8) + (jitter : ℚ))
  | none =>
    min MAX_BACKOFF_MS (min MAX_BACKOFF_MS (1000 * 2 ^ min attempts 8) + (jitter : ℚ))

/-- Modelled from the spec: DEFAULT_TIMEZONE is declared in types.ts, whose
current revision (the one with the timezone field) is not under src/;
its concrete value is irrelevant to every claim under study. -/
def DEFAULT_TIMEZONE : String :=
  "UTC"

/-- MAX_LOGS from taskRunner.ts. -/
def MAX_LOGS : ℕ := 50

/-- IntervalTaskState from types.ts. -/
structure IntervalTaskState where
  status : TaskStatus
  attempts : ℕ
  retryAtMs : Option ℚ := none
  errorMessage : Option String := none
  count : Option ℕ := none
deriving DecidableEq

/-- JobState from types.ts; `tasks` and `data` are total maps over the
fixed interval set (`data i = none` models absence of the key in the
partial record). -/
structure JobState where
  id : String
  symbol : String
  proxyBaseUrl : String
  autoResume : Bool
  timezone : String
  createdAtISO : String
  updatedAtISO : String
  tasks : Interval → IntervalTaskState
  data : Interval → Option (List CandleRow)
  logs : List String

/-- The wall clock as observed during one synchronous stretch of the code:
`nowMs` models Date.now(), `nowIso` models new Date().toISOString(). -/
structure Clock where
  nowMs : ℚ
  nowIso : String

/-- formatLog from taskRunner.ts. -/
def formatLog (c : Clock) (message : String) : String :=
  c.nowIso ++ " " ++ message

/-- withLog from taskRunner.ts: append a formatted entry, keep the last
MAX_LOGS entries (`slice(-MAX_LOGS)`), refresh updatedAtISO. -/
def withLog (c : Clock) (state : JobState) (message : String) : JobState :=
  let logs := state.logs ++ [formatLog c message]
  { state with logs := logs.drop (logs.length - MAX_LOGS), updatedAtISO := c.nowIso }

/-- isFinishedStatus from taskRunner.ts. -/
def isFinishedStatus (status : TaskStatus) : Bool :=
  status == TaskStatus.done || status == TaskStatus.error

/-- initialTaskState from taskRunner.ts: every interval pending with zero
attempts. -/
def initialTaskState : Interval → IntervalTaskState :=
  fun _ => { status := TaskStatus.pending, attempts := 0 }

/-- The fresh JobState built by startNewJob (taskRunner.ts lines 110-124),
including its first log line; `newId` models crypto.randomUUID(). -/
def startJobState (c : Clock) (newId symbol proxyBaseUrl : String)
    (autoResume : Bool) (timezone : String) : JobState :=
  withLog c
    { id := newId
      symbol := symbol
      proxyBaseUrl := proxyBaseUrl
      autoResume := autoResume
      timezone := if timezone = "" then DEFAULT_TIMEZONE else timezone
      createdAtISO := c.nowIso
      updatedAtISO := c.nowIso
      tasks := initialTaskState
      data := fun _ => none
      logs := [] }
    ("Started job for " ++ symbol)

/-- The spread `{ ...prev.tasks, [interval]: t }` on the task record. -/
def updateTask (tasks : Interval → IntervalTaskState) (i : Interval)
    (t : IntervalTaskState) : Interval → IntervalTaskState :=
  fun j => if j = i then t else tasks j

/-- The transition at the top of each executeInterval iteration
(taskRunner.ts lines 202-214): status running, retry timestamp and
error message cleared, other task fields kept. -/
def setRunning (c : Clock) (s : JobState) (i : Interval) : JobState :=
  { s with
    tasks := updateTask s.tasks i
      { s.tasks i with
        status := TaskStatus.running
        retryAtMs := none
        errorMessage := none }
    updatedAtISO := c.nowIso }

/-- onIntervalSuccess from taskRunner.ts: store the batch, mark done with
the count, clear the retry timestamp, and set the advisory message
exactly when the batch is shorter than 1000. -/
def onIntervalSuccess (c : Clock) (s : JobState) (i : Interval)
    (candles : List CandleRow) : JobState :=
  withLog c
    { s with
      data := fun j => if j = i then some candles else s.data j
      tasks := updateTask s.tasks i
        { s.tasks i with
          status := TaskStatus.done
          count := some candles.length
          retryAtMs := none
          errorMessage :=
            if candles.length < 1000 then some "Returned fewer than 1000 candles"
            else none } }
    (intervalName i ++ " completed with " ++ toString candles.length ++ " candles")

/-- onIntervalRetry from taskRunner.ts: mark retrying with the new attempt
count, the retry timestamp now + waitMs, and the error message. -/
def onIntervalRetry (c : Clock) (s : JobState) (i : Interval)
    (attempts : ℕ) (waitMs : ℚ) (errorMessage : String) : JobState :=
  let retryAtMs := c.nowMs + waitMs
  let waitSec : ℤ := ⌈waitMs / 1000⌉
  withLog c
    { s with
      tasks := updateTask s.tasks i
        { s.tasks i with
          status := TaskStatus.retrying
          attempts := attempts
          retryAtMs := some retryAtMs
          errorMessage := some errorMessage } }
    (intervalName i ++ " transient error. Waiting " ++ toString waitSec ++
      "s before retry: " ++ errorMessage)

/-- The fatal branch of executeInterval's catch (taskRunner.ts lines
235-252): mark error with the message; note that the source does not
clear retryAtMs here. -/
def setFatalError (c : Clock) (s : JobState) (i : Interval) (message : String) : JobState :=
  withLog c
    { s with
      tasks := updateTask s.tasks i
        { s.tasks i with
          status := TaskStatus.error
          errorMessage := some message } }
    (intervalName i ++ " failed permanently: " ++ message)

/-- One environment-determined outcome of a fetchKlines call made inside
executeInterval, bundled with the jitter draw that the retry path would
consume for it. -/
inductive FetchResult where
  | success (candles : List CandleRow)
  | failure (e : BinanceApiError) (jitter : ℕ)

/-- executeInterval from taskRunner.ts, driven by a finite list of fetch
outcomes: one loop iteration per list element, stopping when the list
is exhausted (the real loop would block on the next fetch). The
`delay` suspensions do not change state and are elided. Returns the
final state, the unconsumed outcomes, and the trace of every snapshot
passed to persistAndEmit, in order. -/
def executeIntervalLoop (c : Clock) (s : JobState) (i : Interval) :
    List FetchResult → JobState × List FetchResult × List JobState
  | [] => (s, [], [])
  | fr :: rest =>
    if isFinishedStatus (s.tasks i).status then
      (s, fr :: rest, [])
    else
      let s1 := setRunning c s i
      match fr with
      | FetchResult.success candles =>
        let s2 := onIntervalSuccess c s1 i candles
        (s2, rest, [s1, s2])
      | FetchResult.failure e jitter =>
        if e.retryable then
          let attempts := (s1.tasks i).attempts + 1
          let waitMs := computeRetryDelayMs attempts jitter e.retryAfterMs
          let s2 := onIntervalRetry c s1 i attempts waitMs e.message
          let result := executeIntervalLoop c s2 i rest
          (result.1, result.2.1, s1 :: s2 :: result.2.2)
        else
          let s2 := setFatalError c s1 i e.message
          (s2, rest, [s1, s2])

/-- The for-loop of run from taskRunner.ts over a list of intervals:
series already done or in error are skipped unchanged; every other
series is driven by executeInterval. The shared fetch-outcome list
threads through in order. -/
def runLoop (c : Clock) : List Interval → JobState → List FetchResult →
    JobState × List FetchResult × List JobState
  | [], s, oracle => (s, oracle, [])
  | i :: is, s, oracle =>
    if isFinishedStatus (s.tasks i).status then
      runLoop c is s oracle
    else
      let r1 := executeIntervalLoop c s i oracle
      let r2 := runLoop c is r1.1 r1.2.1
      (r2.1, r2.2.1, r1.2.2 ++ r2.2.2)

/-- run from taskRunner.ts (with the re-entrancy flag and the null-state
check handled at the Runner level): the loop over INTERVALS. -/
def run (c : Clock) (s : JobState) (oracle : List FetchResult) :
    JobState × List FetchResult × List JobState :=
  runLoop c INTERVALS s oracle

/-- resumeIfNeeded from taskRunner.ts, with loadSavedState's result passed
in as `saved` (loadSavedState applies the timezone default on read).
Returns `none` when run is not started (no saved job, or autoResume
off, or every series terminal) and `some` with run's outcome when
processing resumes after the "Resuming unfinished job" log entry. -/
def resumeIfNeeded (c : Clock) (saved : Option JobState) (oracle : List FetchResult) :
    Option (JobState × List FetchResult × List JobState) :=
  match saved with
  | none => none
  | some raw =>
    let s := { raw with
      timezone := if raw.timezone = "" then DEFAULT_TIMEZONE else raw.timezone }
    let unfinished := INTERVALS.any fun i => !(isFinishedStatus (s.tasks i).status)
    if s.autoResume && unfinished then
      some (run c (withLog c s "Resuming unfinished job") oracle)
    else
      none

/-- The two-tier durable store of storage.ts: `primarySnapshot` is the
IndexedDB record, `fallbackSnapshot` the localStorage record. -/
structure TieredStore where
  primarySnapshot : Option JobState
  fallbackSnapshot : Option JobState

/-- set on the chooseStorage wrapper (storage.ts): try the primary; on any
primary failure fall through to the fallback; if the fallback write also
throws, that rejection propagates to the caller. `primaryFails` and
`fallbackFails` are the environment's failure injections for this call. -/
def storageSet (st : TieredStore) (value : JobState)
    (primaryFails fallbackFails : Bool) : Except Unit TieredStore :=
  if primaryFails then
    if fallbackFails then Except.error ()
    else Except.ok { st with fallbackSnapshot := some value }
  else
    Except.ok { st with primarySnapshot := some value }

/-- get on the chooseStorage wrapper: the primary's answer unless the
primary throws, in which case the fallback is read. -/
def storageGet (st : TieredStore) (primaryFails : Bool) : Option JobState :=
  if primaryFails then st.fallbackSnapshot else st.primarySnapshot

/-- clear on the chooseStorage wrapper. -/
def storageClear (st : TieredStore) (primaryFails : Bool) : TieredStore :=
  if primaryFails then { st with fallbackSnapshot := none }
  else { st with primarySnapshot := none }

/-- The mutable fields of a TaskRunner instance together with the durable
store it writes through and the sequence of snapshots handed to the
onStateChange observer callback. -/
structure Runner where
  state : Option JobState
  active : Bool
  store : TieredStore
  emitted : List (Option JobState)

/-- persistAndEmit from taskRunner.ts: assign the in-memory state, await
the storage write, then notify the observer. A storage rejection (both
tiers failing) leaves the assignment in place but skips the observer
notification and propagates to the caller; the second component records
whether the call returned normally. -/
def persistAndEmit (r : Runner) (s : JobState)
    (primaryFails fallbackFails : Bool) : Runner × Except Unit Unit :=
  let r1 := { r with state := some s }
  match storageSet r1.store s primaryFails fallbackFails with
  | Except.error e => (r1, Except.error e)
  | Except.ok st =>
    ({ r1 with store := st, emitted := r1.emitted ++ [some s] }, Except.ok ())

/-- setState from taskRunner.ts: a no-op when no Job exists, otherwise
persistAndEmit of the mutated snapshot. -/
def setState (r : Runner) (mutator : JobState → JobState)
    (primaryFails fallbackFails : Bool) : Runner × Except Unit Unit :=
  match r.state with
  | none => (r, Except.ok ())
  | some prev => persistAndEmit r (mutator prev) primaryFails fallbackFails

/-- clearSavedState from taskRunner.ts: deactivate, drop the in-memory
Job, erase the durable snapshot, notify the observer with null. -/
def clearSavedState (r : Runner) (clearPrimaryFails : Bool) : Runner :=
  let r1 := { r with active := false, state := none }
  let r2 := { r1 with store := storageClear r1.store clearPrimaryFails }
  { r2 with emitted := r2.emitted ++ [none] }

/-- The retry-timestamp invariant of the spec for one task: retryAtMs is
present only while the task is retrying. -/
def taskRetryInv (t : IntervalTaskState) : Prop :=
  t.retryAtMs ≠ none → t.status = TaskStatus.retrying

instance (t : IntervalTaskState) : Decidable (taskRetryInv t) := by
  unfold taskRetryInv
  infer_instance

/-- The retry-timestamp invariant over a whole snapshot. -/
def jobRetryInv (s : JobState) : Prop :=
  ∀ i : Interval, taskRetryInv (s.tasks i)

instance (s : JobState) : Decidable (jobRetryInv s) := by
  unfold jobRetryInv
  infer_instance

/-- Whether a raw kline tuple decodes: an array of length at least 7 (the
complement of toCandleRow's throw condition). -/
def decodableCandle : Json → Bool
  | Json.arr items => decide (7 ≤ items.length)
  | _ => false

/-- Whether a fetchKlines outcome raised an error that is marked
retryable. -/
def raisedRetryable (res : Except BinanceApiError (List CandleRow)) : Bool :=
  match res with
  | Except.error e => e.retryable
  | Except.ok _ => false

/-- A concrete clock for witnesses. -/
def exampleClock : Clock :=
  { nowMs := 0, nowIso := "2024-01-01T00:00:00.000Z" }

/-- A concrete fresh job for witnesses (autoResume on, all series
pending). -/
def exampleJob : JobState :=
  startJobState exampleClock "job-1" "BTCUSDT" "" true "UTC"

/-- A concrete fresh runner for witnesses. -/
def exampleRunner : Runner :=
  { state := none, active := false
    store := { primarySnapshot := none, fallbackSnapshot := none }
    emitted := [] }

/- ------------------------------------------------------------------ -/
/- Theorems. -/
/- ------------------------------------------------------------------ -/

/-- C1, as stated, fails on the code: when both storage tiers fail,
persistAndEmit keeps the in-memory assignment but does not invoke the
observer callback, and the rejection reaches the caller. Here the
observer list stays empty and the operation returns the error. -/
theorem claim_C1_counterexample :
    (persistAndEmit exampleRunner exampleJob true true).1.state = some exampleJob ∧
    (persistAndEmit exampleRunner exampleJob true true).1.emitted = [] ∧
    (persistAndEmit exampleRunner exampleJob true true).2 = Except.error () :=
  ⟨rfl, rfl, rfl⟩

/-- C1 amended: for every state mutation, if persisting fails in both
tiers the mutation still takes effect in memory, but the observer
callback is not invoked and the persistence error propagates to the
caller; when the fallback tier is healthy the mutation takes effect,
the observer receives the new snapshot and no error is surfaced,
whether or not the primary tier failed. -/
theorem claim_C1 (r : Runner) (s : JobState) (primaryFails : Bool) :
    ((persistAndEmit r s true true).1.state = some s ∧
     (persistAndEmit r s true true).1.emitted = r.emitted ∧
     (persistAndEmit r s true true).2 = Except.error ()) ∧
    ((persistAndEmit r s primaryFails false).1.state = some s ∧
     (persistAndEmit r s primaryFails false).1.emitted = r.emitted ++ [some s] ∧
     (persistAndEmit r s primaryFails false).2 = Except.ok ()) := by
  cases primaryFails <;> exact ⟨⟨rfl, rfl, rfl⟩, rfl, rfl, rfl⟩

/-- C3: computeWait returns min(hint, 60000) when a positive hint is
present; otherwise (no hint, or a non-positive one) it returns
min(60000, min(60000, 1000 * 2^min(attempts, 8)) + jitter), the jitter
being an integer in [0, 999]. -/
theorem claim_C3 (attempts jitter : ℕ) (hint : ℚ) (_hjitter : jitter ≤ 999) :
    (0 < hint →
      computeRetryDelayMs attempts jitter (some hint) = min hint 60000) ∧
    (hint ≤ 0 →
      computeRetryDelayMs attempts jitter (some hint)
        = min 60000 (min 60000 (1000 * 2 ^ min attempts 8) + (jitter : ℚ))) ∧
    computeRetryDelayMs attempts jitter none
      = min 60000 (min 60000 (1000 * 2 ^ min attempts 8) + (jitter : ℚ)) := by
  refine ⟨fun h => ?_, fun h => ?_, rfl⟩
  · simp [computeRetryDelayMs, MAX_BACKOFF_MS, h]
  · simp [computeRetryDelayMs, MAX_BACKOFF_MS, not_lt.mpr h]

/-- Closed instance of C3 at attempts 2, jitter 7, hint 5000. -/
theorem claim_C3_witness :
    computeRetryDelayMs 2 7 (some 5000) = min 5000 60000 :=
  (claim_C3 2 7 5000 (by norm_num)).1 (by norm_num)

/-- The no-usable-hint branch of computeRetryDelayMs is monotone in the
attempt count (for one jitter draw) and lies in [0, 60000]. -/
theorem computeRetryDelay_none_facts (a b jitter : ℕ) (hab : a ≤ b) :
    computeRetryDelayMs a jitter none ≤ computeRetryDelayMs b jitter none ∧
    0 ≤ computeRetryDelayMs a jitter none ∧
    computeRetryDelayMs b jitter none ≤ 60000 := by
  have hexp : (1000 : ℚ) * 2 ^ min a 8 ≤ 1000 * 2 ^ min b 8 := by
    have h2 : (2 : ℚ) ^ min a 8 ≤ 2 ^ min b 8 :=
      pow_le_pow_right₀ one_le_two (min_le_min hab le_rfl)
    exact mul_le_mul_of_nonneg_left h2 (by norm_num)
  simp only [computeRetryDelayMs, MAX_BACKOFF_MS]
  refine ⟨min_le_min le_rfl (add_le_add_right (min_le_min le_rfl hexp) _), ?_, ?_⟩
  · exact le_min (by norm_num)
      (add_nonneg (le_min (by norm_num) (by positivity)) (Nat.cast_nonneg _))
  · exact min_le_left _ _

/-- A non-positive hint falls through to the no-hint branch. -/
theorem computeRetryDelay_nonpos_hint (a jitter : ℕ) (hint : ℚ) (h : ¬ 0 < hint) :
    computeRetryDelayMs a jitter (some hint) = computeRetryDelayMs a jitter none := by
  simp [computeRetryDelayMs, h]

/-- C4: for one jitter draw and a fixed optional hint, computeWait is
non-decreasing in the attempt count, and its value always lies in
[0, 60000]. -/
theorem claim_C4 (a b jitter : ℕ) (hint : Option ℚ)
    (hab : a ≤ b) (_hjitter : jitter ≤ 999) :
    computeRetryDelayMs a jitter hint ≤ computeRetryDelayMs b jitter hint ∧
    0 ≤ computeRetryDelayMs a jitter hint ∧
    computeRetryDelayMs b jitter hint ≤ 60000 := by
  cases hint with
  | none => exact computeRetryDelay_none_facts a b jitter hab
  | some h =>
    by_cases hp : 0 < h
    · have heq : ∀ x : ℕ, computeRetryDelayMs x jitter (some h) = min h 60000 := by
        intro x
        simp [computeRetryDelayMs, MAX_BACKOFF_MS, hp]
      rw [heq a, heq b]
      exact ⟨le_rfl, le_min hp.le (by norm_num), min_le_right _ _⟩
    · rw [computeRetryDelay_nonpos_hint a jitter h hp,
        computeRetryDelay_nonpos_hint b jitter h hp]
      exact computeRetryDelay_none_facts a b jitter hab

/-- Closed instance of C4 at attempts 1 and 5, jitter 3, no hint. -/
theorem claim_C4_witness :
    computeRetryDelayMs 1 3 none ≤ computeRetryDelayMs 5 3 none ∧
    0 ≤ computeRetryDelayMs 1 3 none ∧
    computeRetryDelayMs 5 3 none ≤ 60000 :=
  claim_C4 1 5 3 none (by norm_num) (by norm_num)

/-- C5: a numeric retry-hint over 1000 is used as milliseconds as-is, a
smaller numeric one is multiplied by 1000, a non-numeric one parsable
as a date becomes the time remaining until it floored at zero, and
otherwise no hint is extracted. -/
theorem claim_C5 (v : HeaderValue) (nowMs : ℚ) :
    (∀ n, v.asNumber = some n → 1000 < n →
      parseRetryAfterMs (some v) nowMs = some n) ∧
    (∀ n, v.asNumber = some n → n < 1000 →
      parseRetryAfterMs (some v) nowMs = some (n * 1000)) ∧
    (∀ d, v.asNumber = none → v.asDateMs = some d →
      parseRetryAfterMs (some v) nowMs = some (max 0 (d - nowMs))) ∧
    (v.asNumber = none → v.asDateMs = none →
      parseRetryAfterMs (some v) nowMs = none) := by
  refine ⟨fun n hn hgt => ?_, fun n hn hlt => ?_,
    fun d hn hd => ?_, fun hn hd => ?_⟩
  · simp [parseRetryAfterMs, hn, hgt]
  · simp [parseRetryAfterMs, hn, not_lt.mpr hlt.le]
  · simp [parseRetryAfterMs, hn, hd]
  · simp [parseRetryAfterMs, hn, hd]

/-- Closed instance of C5: a numeric hint of 5 becomes 5000 ms. -/
theorem claim_C5_witness :
    parseRetryAfterMs (some { asNumber := some 5, asDateMs := none }) 0
      = some (5 * 1000) :=
  (claim_C5 { asNumber := some 5, asDateMs := none } 0).2.1 5 rfl (by norm_num)

/-- C9: after clearSavedState, the in-memory Job is gone, the run flag is
down, the durable store reads back none, the observer was notified with
none, and any subsequent setState mutation is a no-op that persists and
emits nothing. -/
theorem claim_C9 (r : Runner) (mutator : JobState → JobState)
    (primaryFails fallbackFails : Bool) :
    (clearSavedState r false).state = none ∧
    (clearSavedState r false).active = false ∧
    storageGet (clearSavedState r false).store false = none ∧
    (clearSavedState r false).emitted = r.emitted ++ [none] ∧
    setState (clearSavedState r false) mutator primaryFails fallbackFails
      = (clearSavedState r false, Except.ok ()) :=
  ⟨rfl, rfl, rfl, rfl, rfl⟩

/-- C10: onIntervalSuccess marks the series done and stores the advisory
text in errorMessage exactly when the batch is shorter than 1000, so on
a done series errorMessage is none iff the batch had at least 1000
records. -/
theorem claim_C10 (c : Clock) (s : JobState) (i : Interval)
    (candles : List CandleRow) :
    ((onIntervalSuccess c s i candles).tasks i).status = TaskStatus.done ∧
    (candles.length < 1000 →
      ((onIntervalSuccess c s i candles).tasks i).errorMessage
        = some "Returned fewer than 1000 candles") ∧
    (((onIntervalSuccess c s i candles).tasks i).errorMessage = none ↔
      1000 ≤ candles.length) := by
  by_cases hlen : candles.length < 1000
  · simp [onIntervalSuccess, withLog, updateTask, hlen, not_le.mpr hlen]
  · simp [onIntervalSuccess, withLog, updateTask, hlen, not_lt.mp hlen]

/-- Closed instance of C10: an empty batch leaves a done series carrying
the advisory message. -/
theorem claim_C10_witness :
    ((onIntervalSuccess exampleClock exampleJob Interval.i1m []).tasks
        Interval.i1m).errorMessage = some "Returned fewer than 1000 candles" :=
  (claim_C10 exampleClock exampleJob Interval.i1m []).2.1 (by norm_num)

/-- An undecodable tuple makes toCandleRow raise the retryable
invalid-payload error. -/
theorem toCandleRow_error_of_not_decodable (x : Json)
    (h : decodableCandle x = false) :
    toCandleRow x
      = Except.error { message := "Invalid candle payload from Binance",
                       status := none, retryAfterMs := none, retryable := true } := by
  cases x with
  | arr items =>
    simp only [decodableCandle, decide_eq_false_iff_not, not_le] at h
    simp [toCandleRow, h]
  | null => rfl
  | bool b => rfl
  | num n => rfl
  | str s => rfl
  | obj => rfl

/-- Every error raised while mapping tuples to rows is retryable. -/
theorem mapToCandleRows_error_retryable :
    ∀ (items : List Json) (e : BinanceApiError),
      mapToCandleRows items = Except.error e → e.retryable = true := by
  intro items
  induction items with
  | nil => intro e h; simp [mapToCandleRows] at h
  | cons x rest ih =>
    intro e h
    simp only [mapToCandleRows] at h
    cases hx : toCandleRow x with
    | error ex =>
      rw [hx] at h
      cases h
      cases x with
      | arr xs =>
        simp only [toCandleRow] at hx
        by_cases hlen : xs.length < 7
        · rw [if_pos hlen] at hx
          cases hx
          rfl
        · rw [if_neg hlen] at hx
          cases hx
      | null => cases hx; rfl
      | bool b => cases hx; rfl
      | num n => cases hx; rfl
      | str s => cases hx; rfl
      | obj => cases hx; rfl
    | ok row =>
      rw [hx] at h
      cases hr : mapToCandleRows rest with
      | error er =>
        rw [hr] at h
        cases h
        exact ih _ hr
      | ok rows =>
        rw [hr] at h
        cases h

/-- A batch containing an undecodable tuple makes the whole map raise an
error. -/
theorem mapToCandleRows_error_exists :
    ∀ (items : List Json), (∃ x ∈ items, decodableCandle x = false) →
      ∃ e, mapToCandleRows items = Except.error e := by
  intro items
  induction items with
  | nil => rintro ⟨x, hx, _⟩; cases hx
  | cons y rest ih =>
    rintro ⟨x, hx, hbad⟩
    simp only [mapToCandleRows]
    cases hy : toCandleRow y with
    | error ey => exact ⟨ey, rfl⟩
    | ok row =>
      rcases List.mem_cons.mp hx with hxy | hxrest
      · subst hxy
        rw [toCandleRow_error_of_not_decodable x hbad] at hy
        cases hy
      · rcases ih ⟨x, hxrest, hbad⟩ with ⟨er, her⟩
        rw [her]
        exact ⟨er, rfl⟩

/-- C2: network failures, timeouts, HTTP 418/429/5xx and undecodable
bodies are classified retryable; every other non-2xx status is fatal,
its error carrying the response body truncated to 250 characters in
the message. -/
theorem claim_C2 (m : String) (nowMs : ℚ) (status : ℕ)
    (hdr : Option HeaderValue) (bodyText : Option String)
    (bodyJson : Option Json) (items : List Json) (detail : String) :
    raisedRetryable (fetchKlines (FetchOutcome.netError m) nowMs) = true ∧
    raisedRetryable (fetchKlines FetchOutcome.abortTimeout nowMs) = true ∧
    (status = 418 ∨ status = 429 ∨ 500 ≤ status →
      raisedRetryable
        (fetchKlines (FetchOutcome.response status hdr bodyText bodyJson) nowMs)
        = true) ∧
    (200 ≤ status ∧ status < 300 → (∀ its, bodyJson ≠ some (Json.arr its)) →
      raisedRetryable
        (fetchKlines (FetchOutcome.response status hdr bodyText bodyJson) nowMs)
        = true) ∧
    (200 ≤ status ∧ status < 300 → (∃ x ∈ items, decodableCandle x = false) →
      raisedRetryable
        (fetchKlines
          (FetchOutcome.response status hdr bodyText (some (Json.arr items))) nowMs)
        = true) ∧
    (¬ (200 ≤ status ∧ status < 300) → status ≠ 418 → status ≠ 429 → status < 500 →
      fetchKlines (FetchOutcome.response status hdr (some detail) bodyJson) nowMs
        = Except.error
            { message := "HTTP " ++ toString status ++
                (if detail = "" then "" else ": " ++ detail.take 250)
              status := some status
              retryAfterMs := parseRetryAfterMs hdr nowMs
              retryable := false }) := by
  refine ⟨rfl, rfl, fun h => ?_, fun hok hnarr => ?_, fun hok hbad => ?_,
    fun hok h418 h429 h500 => ?_⟩
  · have hnotok : ¬ (200 ≤ status ∧ status < 300) := by
      rcases h with h | h | h <;> omega
    have hretry : (status == 418 || status == 429 || decide (500 ≤ status)) = true := by
      rcases h with h | h | h <;> simp [h]
    simp [fetchKlines, hnotok, raisedRetryable, hretry]
  · cases bodyJson with
    | none => simp [fetchKlines, hok, raisedRetryable]
    | some j =>
      cases j with
      | arr its => exact absurd rfl (hnarr its)
      | null => simp [fetchKlines, hok, raisedRetryable]
      | bool b => simp [fetchKlines, hok, raisedRetryable]
      | num n => simp [fetchKlines, hok, raisedRetryable]
      | str s => simp [fetchKlines, hok, raisedRetryable]
      | obj => simp [fetchKlines, hok, raisedRetryable]
  · rcases mapToCandleRows_error_exists items hbad with ⟨e, he⟩
    have hr := mapToCandleRows_error_retryable items e he
    simp [fetchKlines, hok, raisedRetryable, he, hr]
  · have hretry : (status == 418 || status == 429 || decide (500 ≤ status)) = false := by
      simp only [Bool.or_eq_false_iff, beq_eq_false_iff_ne, ne_eq,
        decide_eq_false_iff_not, not_le]
      exact ⟨⟨h418, h429⟩, h500⟩
    simp [fetchKlines, hok, hretry]

/-- Closed instance of C2: HTTP 403 with body "Forbidden" is fatal, with
the truncated body folded into the message. -/
theorem claim_C2_witness :
    fetchKlines (FetchOutcome.response 403 none (some "Forbidden") none) 0
      = Except.error
          { message := "HTTP " ++ toString 403 ++
              (if ("Forbidden" : String) = "" then ""
               else ": " ++ ("Forbidden" : String).take 250)
            status := some 403
            retryAfterMs := parseRetryAfterMs none 0
            retryable := false } :=
  (claim_C2 "m" 0 403 none (some "Forbidden") none [] "Forbidden").2.2.2.2.2
    (by decide) (by decide) (by decide) (by decide)

/-- C6: a successful fetch whose batch is shorter than the requested 1000
leaves the series done (not error) with the batch stored, the count set,
the advisory message on the task, the attempt counter untouched, and the
per-series procedure returning without consuming further fetches. -/
theorem claim_C6 (c : Clock) (s : JobState) (i : Interval)
    (candles : List CandleRow) (rest : List FetchResult)
    (hactive : isFinishedStatus (s.tasks i).status = false)
    (hshort : candles.length < 1000) :
    ((executeIntervalLoop c s i (FetchResult.success candles :: rest)).1.tasks i).status
      = TaskStatus.done ∧
    ((executeIntervalLoop c s i (FetchResult.success candles :: rest)).1.tasks i).count
      = some candles.length ∧
    (executeIntervalLoop c s i (FetchResult.success candles :: rest)).1.data i
      = some candles ∧
    ((executeIntervalLoop c s i (FetchResult.success candles :: rest)).1.tasks i).errorMessage
      = some "Returned fewer than 1000 candles" ∧
    ((executeIntervalLoop c s i (FetchResult.success candles :: rest)).1.tasks i).attempts
      = (s.tasks i).attempts ∧
    (executeIntervalLoop c s i (FetchResult.success candles :: rest)).2.1 = rest := by
  simp [executeIntervalLoop, hactive, onIntervalSuccess, withLog, setRunning,
    updateTask, hshort]

/-- Closed instance of C6: an empty batch for the 1m series of a fresh job
ends it done. -/
theorem claim_C6_witness :
    ((executeIntervalLoop exampleClock exampleJob Interval.i1m
        [FetchResult.success []]).1.tasks Interval.i1m).status = TaskStatus.done :=
  (claim_C6 exampleClock exampleJob Interval.i1m [] [] rfl (by norm_num)).1

/-- Every interval is in the fixed INTERVALS list. -/
theorem mem_INTERVALS (k : Interval) : k ∈ INTERVALS := by
  cases k <;> simp [INTERVALS]

/-- Driving one series never touches another series' task record. -/
theorem executeIntervalLoop_tasks_ne (c : Clock) (j i : Interval) (hij : i ≠ j) :
    ∀ (oracle : List FetchResult) (s : JobState),
      ((executeIntervalLoop c s j oracle).1).tasks i = s.tasks i := by
  intro oracle
  induction oracle with
  | nil => intro s; rfl
  | cons fr rest ih =>
    intro s
    by_cases hfin : isFinishedStatus (s.tasks j).status = true
    · simp [executeIntervalLoop, hfin]
    · cases fr with
      | success candles =>
        simp [executeIntervalLoop, hfin, onIntervalSuccess, withLog, setRunning,
          updateTask, hij]
      | failure e jitter =>
        by_cases hre : e.retryable = true
        · simp only [executeIntervalLoop, hfin, hre, Bool.false_eq_true,
            if_false, if_true]
          rw [ih]
          simp [onIntervalRetry, withLog, setRunning, updateTask, hij]
        · simp [executeIntervalLoop, hfin, hre, setFatalError, withLog,
            setRunning, updateTask, hij]

/-- The run loop leaves the task record of a terminal series unchanged. -/
theorem runLoop_tasks_of_finished (c : Clock) (i : Interval) :
    ∀ (js : List Interval) (s : JobState) (oracle : List FetchResult),
      isFinishedStatus (s.tasks i).status = true →
      ((runLoop c js s oracle).1).tasks i = s.tasks i := by
  intro js
  induction js with
  | nil => intro s oracle _; rfl
  | cons j rest ih =>
    intro s oracle hfin
    by_cases hj : isFinishedStatus (s.tasks j).status = true
    · simp only [runLoop, hj, if_true]
      exact ih s oracle hfin
    · have hij : i ≠ j := by
        intro he
        rw [he] at hfin
        exact hj hfin
      have h1 : ((executeIntervalLoop c s j oracle).1).tasks i = s.tasks i :=
        executeIntervalLoop_tasks_ne c j i hij oracle s
      have h2 := ih (executeIntervalLoop c s j oracle).1
        (executeIntervalLoop c s j oracle).2.1 (by rw [h1]; exact hfin)
      simp only [runLoop, hj, Bool.false_eq_true, if_false]
      rw [h2, h1]

/-- C7: resumeIfNeeded begins processing exactly when a persisted Job
exists with autoResume on and some series non-terminal; and neither the
per-series procedure nor the whole run loop re-executes a series that is
already done or in error — it is skipped with its task unchanged and no
fetch consumed. -/
theorem claim_C7 (c : Clock) (saved : Option JobState)
    (oracle : List FetchResult) (s : JobState) (i : Interval) :
    ((resumeIfNeeded c saved oracle).isSome = true ↔
      ∃ j, saved = some j ∧ j.autoResume = true ∧
        ∃ k : Interval, isFinishedStatus (j.tasks k).status = false) ∧
    (isFinishedStatus (s.tasks i).status = true →
      executeIntervalLoop c s i oracle = (s, oracle, []) ∧
      ((run c s oracle).1).tasks i = s.tasks i) := by
  constructor
  · cases saved with
    | none => simp [resumeIfNeeded]
    | some raw =>
      simp only [resumeIfNeeded]
      by_cases hb : (raw.autoResume &&
          INTERVALS.any fun k => !(isFinishedStatus (raw.tasks k).status)) = true
      · rw [if_pos hb]
        rw [Bool.and_eq_true] at hb
        rcases List.any_eq_true.mp hb.2 with ⟨k, _, hk⟩
        rw [Bool.not_eq_true'] at hk
        simp only [Option.isSome_some, true_iff]
        exact ⟨raw, rfl, hb.1, k, hk⟩
      · rw [if_neg hb]
        simp only [Option.isSome_none, Bool.false_eq_true, false_iff]
        rintro ⟨j, hj, har, k, hk⟩
        cases hj
        exact hb (by
          rw [Bool.and_eq_true]
          exact ⟨har, List.any_eq_true.mpr ⟨k, mem_INTERVALS k, by simp [hk]⟩⟩)
  · intro hfin
    constructor
    · cases oracle with
      | nil => rfl
      | cons fr rest => simp [executeIntervalLoop, hfin]
    · exact runLoop_tasks_of_finished c i INTERVALS s oracle hfin

/-- Closed instance of C7: a fresh autoResume job does resume. -/
theorem claim_C7_witness :
    (resumeIfNeeded exampleClock (some exampleJob) []).isSome = true :=
  (claim_C7 exampleClock (some exampleJob) [] exampleJob Interval.i1m).1.mpr
    ⟨exampleJob, rfl, rfl, Interval.i1m, rfl⟩

/-- The running transition clears the retry timestamp of its series. -/
theorem setRunning_retryAtMs (c : Clock) (s : JobState) (i : Interval) :
    ((setRunning c s i).tasks i).retryAtMs = none := by
  simp [setRunning, updateTask]

/-- The done transition clears the retry timestamp of its series. -/
theorem onIntervalSuccess_retryAtMs (c : Clock) (s : JobState) (i : Interval)
    (candles : List CandleRow) :
    ((onIntervalSuccess c s i candles).tasks i).retryAtMs = none := by
  simp [onIntervalSuccess, withLog, updateTask]

/-- The running transition preserves the retry-timestamp invariant. -/
theorem jobRetryInv_setRunning (c : Clock) (s : JobState) (i : Interval)
    (h : jobRetryInv s) : jobRetryInv (setRunning c s i) := by
  intro k
  by_cases hk : k = i
  · subst hk
    simp [setRunning, updateTask, taskRetryInv]
  · simpa [setRunning, updateTask, hk] using h k

/-- The done transition preserves the retry-timestamp invariant. -/
theorem jobRetryInv_onIntervalSuccess (c : Clock) (s : JobState) (i : Interval)
    (candles : List CandleRow) (h : jobRetryInv s) :
    jobRetryInv (onIntervalSuccess c s i candles) := by
  intro k
  by_cases hk : k = i
  · subst hk
    simp [onIntervalSuccess, withLog, updateTask, taskRetryInv]
  · simpa [onIntervalSuccess, withLog, updateTask, hk] using h k

/-- The retrying transition preserves the retry-timestamp invariant (the
timestamp it sets comes with status retrying). -/
theorem jobRetryInv_onIntervalRetry (c : Clock) (s : JobState) (i : Interval)
    (attempts : ℕ) (waitMs : ℚ) (msg : String) (h : jobRetryInv s) :
    jobRetryInv (onIntervalRetry c s i attempts waitMs msg) := by
  intro k
  by_cases hk : k = i
  · subst hk
    simp [onIntervalRetry, withLog, updateTask, taskRetryInv]
  · simpa [onIntervalRetry, withLog, updateTask, hk] using h k

/-- The fatal transition preserves the retry-timestamp invariant whenever
the series it hits carries no retry timestamp (which is the case at its
only call site, right after the running transition). -/
theorem jobRetryInv_setFatalError (c : Clock) (s : JobState) (i : Interval)
    (msg : String) (h : jobRetryInv s) (hnone : (s.tasks i).retryAtMs = none) :
    jobRetryInv (setFatalError c s i msg) := by
  intro k
  by_cases hk : k = i
  · subst hk
    simp [setFatalError, withLog, updateTask, taskRetryInv, hnone]
  · simpa [setFatalError, withLog, updateTask, hk] using h k

/-- The per-series procedure preserves the retry-timestamp invariant, on
its final state and on every intermediate snapshot it emits. -/
theorem executeIntervalLoop_inv (c : Clock) (i : Interval) :
    ∀ (oracle : List FetchResult) (s : JobState), jobRetryInv s →
      jobRetryInv ((executeIntervalLoop c s i oracle).1) ∧
      ∀ t ∈ (executeIntervalLoop c s i oracle).2.2, jobRetryInv t := by
  intro oracle
  induction oracle with
  | nil => intro s h; exact ⟨h, by simp [executeIntervalLoop]⟩
  | cons fr rest ih =>
    intro s h
    by_cases hfin : isFinishedStatus (s.tasks i).status = true
    · constructor
      · simpa [executeIntervalLoop, hfin] using h
      · simp [executeIntervalLoop, hfin]
    · have h1 : jobRetryInv (setRunning c s i) := jobRetryInv_setRunning c s i h
      cases fr with
      | success candles =>
        have h2 := jobRetryInv_onIntervalSuccess c (setRunning c s i) i candles h1
        constructor
        · simpa [executeIntervalLoop, hfin] using h2
        · intro t ht
          simp only [executeIntervalLoop, hfin, Bool.false_eq_true, if_false,
            List.mem_cons, List.not_mem_nil, or_false] at ht
          rcases ht with rfl | rfl
          · exact h1
          · exact h2
      | failure e jitter =>
        by_cases hre : e.retryable = true
        · have h2 := jobRetryInv_onIntervalRetry c (setRunning c s i) i
            (((setRunning c s i).tasks i).attempts + 1)
            (computeRetryDelayMs (((setRunning c s i).tasks i).attempts + 1)
              jitter e.retryAfterMs)
            e.message h1
          have h3 := ih _ h2
          constructor
          · simpa [executeIntervalLoop, hfin, hre] using h3.1
          · intro t ht
            simp only [executeIntervalLoop, hfin, hre, Bool.false_eq_true,
              if_false, if_true, List.mem_cons] at ht
            rcases ht with rfl | rfl | hmem
            · exact h1
            · exact h2
            · exact h3.2 t hmem
        · have h2 := jobRetryInv_setFatalError c (setRunning c s i) i e.message h1
            (setRunning_retryAtMs c s i)
          constructor
          · simpa [executeIntervalLoop, hfin, hre] using h2
          · intro t ht
            simp only [executeIntervalLoop, hfin, hre, Bool.false_eq_true,
              if_false, List.mem_cons, List.not_mem_nil, or_false] at ht
            rcases ht with rfl | rfl
            · exact h1
            · exact h2

/-- The run loop preserves the retry-timestamp invariant, on its final
state and on every snapshot it emits. -/
theorem runLoop_inv (c : Clock) :
    ∀ (js : List Interval) (s : JobState) (oracle : List FetchResult),
      jobRetryInv s →
      jobRetryInv ((runLoop c js s oracle).1) ∧
      ∀ t ∈ (runLoop c js s oracle).2.2, jobRetryInv t := by
  intro js
  induction js with
  | nil => intro s oracle h; exact ⟨h, by simp [runLoop]⟩
  | cons j rest ih =>
    intro s oracle h
    by_cases hj : isFinishedStatus (s.tasks j).status = true
    · simpa [runLoop, hj] using ih s oracle h
    · have h1 := executeIntervalLoop_inv c j oracle s h
      have h2 := ih (executeIntervalLoop c s j oracle).1
        (executeIntervalLoop c s j oracle).2.1 h1.1
      constructor
      · simpa [runLoop, hj] using h2.1
      · intro t ht
        simp only [runLoop, hj, Bool.false_eq_true, if_false,
          List.mem_append] at ht
        rcases ht with hmem | hmem
        · exact h1.2 t hmem
        · exact h2.2 t hmem

/-- C8: the retry-timestamp invariant (retryAtMs present only while the
task is retrying) holds of a fresh job and is preserved by a whole run,
both on its final state and on every snapshot it persists and emits;
and the transitions that leave the retrying status (to running, and
from there to done) clear retryAtMs. -/
theorem claim_C8 (c : Clock) (s sAny : JobState) (oracle : List FetchResult)
    (candles : List CandleRow) (i : Interval)
    (newId symbol proxyBaseUrl timezone : String) (autoResume : Bool)
    (hinv : jobRetryInv s) :
    jobRetryInv (startJobState c newId symbol proxyBaseUrl autoResume timezone) ∧
    jobRetryInv ((run c s oracle).1) ∧
    (∀ t ∈ (run c s oracle).2.2, jobRetryInv t) ∧
    ((setRunning c sAny i).tasks i).retryAtMs = none ∧
    ((onIntervalSuccess c sAny i candles).tasks i).retryAtMs = none := by
  have h := runLoop_inv c INTERVALS s oracle hinv
  refine ⟨?_, h.1, h.2, setRunning_retryAtMs c sAny i,
    onIntervalSuccess_retryAtMs c sAny i candles⟩
  intro k
  simp [startJobState, withLog, initialTaskState, taskRetryInv]

/-- Closed instance of C8: the invariant holds of the fresh example job and
of the outcome of an (empty-oracle) run on it. -/
theorem claim_C8_witness :
    jobRetryInv exampleJob ∧ jobRetryInv ((run exampleClock exampleJob []).1) :=
  ⟨by decide,
    (claim_C8 exampleClock exampleJob exampleJob [] [] Interval.i1m
      "j" "BTCUSDT" "" "UTC" true (by decide)).2.1⟩

end Scalpeou
